import Mathlib

/-!
Shallow embedding of the Tempered authentication engine.

The embedding follows the Rust source:
* `local_jwt_validator.rs` (token codec and validator),
* `hashset_banned_token_store.rs` (ban set),
* `hashmap_two_fa_code_store.rs` (pending-2FA table),
* `hashmap_user_store.rs` (user table),
* the use cases `login.rs`, `signup.rs`, `verify_2fa.rs`, `logout.rs`,
  `elevate.rs`, the `JwtScheme` elevation, and the `elevate` HTTP route,
* `postgres_user_store.rs` (Argon2 password hashing helpers).

Machinery that lives in external crates (jsonwebtoken, argon2) or in domain
modules absent from the source tree (Email/Password/User value objects) is
modelled from the spec; each such definition carries a doc comment saying so.
Stateful stores are embedded as explicit values threaded through functions.
-/

namespace Tempered

/-- Token payload, from `Claims` in `local_jwt_validator.rs`: subject email
string and expiry timestamp (`usize` in the source, `Nat` here). -/
structure Claims where
  sub : String
  exp : Nat
deriving DecidableEq, Repr

/-- Decode-time failures of the jsonwebtoken crate that this code can hit:
signature mismatch and expired `exp`. -/
inductive JwtError
  | InvalidSignature
  | ExpiredSignature
deriving DecidableEq, Repr

/-- `TokenAuthError` from `local_jwt_validator.rs`. -/
inductive TokenAuthError
  | MissingToken
  | InvalidToken
  | TokenError (e : JwtError)
  | TokenIsBanned
  | UnexpectedError (msg : String)
deriving DecidableEq, Repr

/-- Modelled from the spec: a signed bearer token ("opaque signed string,
carries Claims").  The source produces the JWT compact serialization via
`jsonwebtoken::encode` with the constant default header (`HS256`): the byte
string is a function of the claims JSON (fixed field order `sub`, `exp` from
the manual `Serialize` impl) and the HMAC-SHA256 tag, which is a function of
the signing secret and the signed content.  A `Token` value records exactly
those determining inputs, so equality of `Token` values corresponds to byte
equality of the serialized strings (injectivity of base64/JSON plus
collision-freeness of the MAC, which §4.3 and §9 of the spec treat as a hard
contract). -/
structure Token where
  claims : Claims
  key : String
deriving DecidableEq, Repr

/-- `create_token` from `local_jwt_validator.rs`: encode the claims with the
default header under the given secret.  `jsonwebtoken::encode` takes no
randomness, so the result is a function of `(claims, secret)`. -/
def create_token (claims : Claims) (secret : String) : Token :=
  ⟨claims, secret⟩

/-- Default leeway of `jsonwebtoken::Validation::default()` (60 seconds). -/
def decodeLeeway : Nat := 60

/-- Modelled from the external jsonwebtoken crate's `decode` with
`Validation::default()`, as called by `validate_auth_token`: verify the
HMAC signature against `secret`, then reject if `exp < now - leeway`;
otherwise return the claims.  `now` makes the crate's internal clock read
explicit. -/
def jwtDecode (t : Token) (secret : String) (now : Nat) : Except JwtError Claims :=
  if t.key ≠ secret then .error .InvalidSignature
  else if t.claims.exp < now - decodeLeeway then .error .ExpiredSignature
  else .ok t.claims

/-- `HashSetBannedTokenStore::ban_token`: insert the token string into the
set (idempotent, as `HashSet::insert` is). -/
def ban_token (t : Token) (s : List Token) : List Token :=
  if t ∈ s then s else t :: s

/-- `HashSetBannedTokenStore::contains_token`: set membership. -/
def contains_token (s : List Token) (t : Token) : Bool :=
  decide (t ∈ s)

/-- `validate_auth_token` from `local_jwt_validator.rs`: decode and
signature-verify the token, then re-encode the recovered claims with the
same secret (`create_token`) and query the banned-token store with that
canonical re-encoding; fail `TokenIsBanned` if present, else return the
claims. -/
def validate_auth_token (t : Token) (banned : List Token) (secret : String)
    (now : Nat) : Except TokenAuthError Claims :=
  match jwtDecode t secret now with
  | .error e => .error (.TokenError e)
  | .ok claims =>
      let reissued := create_token claims secret
      if contains_token banned reissued then .error .TokenIsBanned
      else .ok claims

/-- `generate_auth_token` from `local_jwt_validator.rs`: expiry is
`now + ttl` (i64 arithmetic, in-range per `checked_add_signed`); the cast to
`usize` fails on a negative result with `UnexpectedError`; then the claims
`{sub := email, exp}` are encoded by `create_token`. -/
def generate_auth_token (sub : String) (ttl now : Int) (secret : String) :
    Except TokenAuthError Token :=
  let exp : Int := now + ttl
  if exp < 0 then .error (.UnexpectedError "Failed to cast i64 to usize")
  else .ok (create_token ⟨sub, exp.toNat⟩ secret)

/-- `TwoFaCodeStoreError` from `ports/repositories.rs`. -/
inductive TwoFaCodeStoreError
  | UserNotFound
  | InvalidAttemptId
  | Invalid2FACode
  | UnexpectedError (msg : String)
deriving DecidableEq, Repr

/-- State of `HashMapTwoFaCodeStore`: a map from email to the pending
`(attempt_id, code)` pair, embedded as an association list whose head entry
for a key is the current binding.  Attempt ids and codes are the opaque
random strings of the missing `two_fa_attempt_id.rs`/`two_fa_code.rs`
domain modules (modelled from the spec: "random unguessable token",
compared only for equality). -/
abbrev TwoFaStore := List (String × String × String)

/-- `HashMapTwoFaCodeStore::store_code`: `HashMap::insert`, overwriting any
prior pending challenge for that email. -/
def store_code (email attemptId code : String) (s : TwoFaStore) : TwoFaStore :=
  (email, attemptId, code) :: s.filter (fun e => e.1 != email)

/-- `HashMapTwoFaCodeStore::get_login_attempt_id_and_two_fa_code`: read-only
lookup, `UserNotFound` when nothing is pending for the email. -/
def get_login_attempt_id_and_two_fa_code (s : TwoFaStore) (email : String) :
    Except TwoFaCodeStoreError (String × String) :=
  match s.find? (fun e => e.1 == email) with
  | none => .error .UserNotFound
  | some e => .ok e.2

/-- `HashMapTwoFaCodeStore::delete`: `HashMap::remove`, failing
`UserNotFound` when nothing was pending. -/
def deleteCode (email : String) (s : TwoFaStore) :
    Except TwoFaCodeStoreError TwoFaStore :=
  if s.any (fun e => e.1 == email) then .ok (s.filter (fun e => e.1 != email))
  else .error .UserNotFound

/-- `Verify2FaError` from `use_cases/verify_2fa.rs`. -/
inductive Verify2FaError
  | TwoFaCodeStoreError (e : TwoFaCodeStoreError)
  | InvalidLoginAttemptId
  | InvalidTwoFaCode
deriving DecidableEq, Repr

/-- `Verify2FaUseCase::execute` against `HashMapTwoFaCodeStore`: fetch the
stored `(attempt_id, code)` for the email, compare the submitted attempt id
(else `InvalidLoginAttemptId`), compare the submitted code (else
`InvalidTwoFaCode`), then delete the used challenge and return the email.
The pair result is (use-case result, store state after the call). -/
def verify2fa_execute (s : TwoFaStore) (email attemptId code : String) :
    Except Verify2FaError String × TwoFaStore :=
  match get_login_attempt_id_and_two_fa_code s email with
  | .error e => (.error (.TwoFaCodeStoreError e), s)
  | .ok (storedId, storedCode) =>
    if storedId ≠ attemptId then (.error .InvalidLoginAttemptId, s)
    else if storedCode ≠ code then (.error .InvalidTwoFaCode, s)
    else
      match deleteCode email s with
      | .error e => (.error (.TwoFaCodeStoreError e), s)
      | .ok s' => (.ok email, s')

/-- `UserStoreError` from `ports/repositories.rs`. -/
inductive UserStoreError
  | UserAlreadyExists
  | UserNotFound
  | IncorrectPassword
  | UnexpectedError (msg : String)
deriving DecidableEq, Repr

/-- Modelled from the spec: the `User` account record of the missing
`domain/user.rs` ("Email, PasswordHash, requires_2fa flag"; "User::new
stores only the hash").  The stored credential is represented by the
password it was derived from, because §4.2/§8 specify that the hashing
engine's `verify` holds exactly for the matching candidate. -/
structure User where
  email : String
  password : String
  requires_2fa : Bool
deriving DecidableEq, Repr

/-- Modelled from the spec: `User::password_matches(candidate)` "never
throws; returns boolean from the hashing engine's verify", which per §8 is
true exactly when the candidate equals the stored credential. -/
def password_matches (u : User) (candidate : String) : Bool :=
  u.password == candidate

/-- Modelled from the spec: `ValidatedUser`, "variant {RequiresTwoFa(Email),
NoTwoFa(Email)}; never constructed except by a successful authenticate". -/
inductive ValidatedUser
  | Requires2Fa (email : String)
  | No2Fa (email : String)
deriving DecidableEq, Repr

/-- Modelled from the spec: `ValidatedUser::new(email, requires_2fa)`
selects the variant from the user's 2FA flag, as the login branching in
`login.rs`/`jwt_scheme.rs` relies on. -/
def ValidatedUser.new (email : String) (requires2fa : Bool) : ValidatedUser :=
  if requires2fa then .Requires2Fa email else .No2Fa email

/-- State of `HashMapUserStore`: the user table keyed by email, embedded as
a list of `User` records looked up by their `email` field. -/
abbrev UserTable := List User

/-- `HashMapUserStore::add_user`: fail `UserAlreadyExists` when the email is
already a key, else insert the record. -/
def add_user (users : UserTable) (user : User) : Except UserStoreError UserTable :=
  if users.any (fun u => u.email == user.email) then .error .UserAlreadyExists
  else .ok (user :: users)

/-- `HashMapUserStore::authenticate_user`: look the email up (`UserNotFound`
if absent), check `password_matches` (`IncorrectPassword` if not), return
`ValidatedUser::new(email, requires_2fa)`. -/
def authenticate_user (users : UserTable) (email password : String) :
    Except UserStoreError ValidatedUser :=
  match users.find? (fun u => u.email == email) with
  | none => .error .UserNotFound
  | some u =>
    if password_matches u password then .ok (ValidatedUser.new email u.requires_2fa)
    else .error .IncorrectPassword

/-- `HashMapUserStore::get_user`: lookup, `UserNotFound` if absent. -/
def get_user (users : UserTable) (email : String) : Except UserStoreError User :=
  match users.find? (fun u => u.email == email) with
  | none => .error .UserNotFound
  | some u => .ok u

/-- `SignupUseCase::execute`: build `User::new(email, password,
requires_2fa)` and `add_user` it.  The pair result is (use-case result,
user table after the call); a failed `add_user` leaves the table as it
was. -/
def signup_execute (users : UserTable) (email password : String)
    (requires2fa : Bool) : Except UserStoreError Unit × UserTable :=
  match add_user users ⟨email, password, requires2fa⟩ with
  | .error e => (.error e, users)
  | .ok users' => (.ok (), users')

/-- `LoginResponse` from `use_cases/login.rs`. -/
inductive LoginResponse
  | Success (email : String)
  | Requires2Fa (email : String) (attemptId : String)
deriving DecidableEq, Repr

/-- `LoginError` from `use_cases/login.rs`. -/
inductive LoginError
  | UserStoreError (e : UserStoreError)
  | TwoFaCodeStoreError (e : TwoFaCodeStoreError)
  | EmailError (msg : String)
deriving DecidableEq, Repr

/-- One `EmailClient::send_email(recipient, subject, content)` call. -/
structure SentEmail where
  recipient : String
  subject : String
  content : String
deriving DecidableEq, Repr

/-- Observable outcome of one `LoginUseCase::execute` call: the returned
result, the 2FA store afterwards, and the emails sent during the call. -/
structure LoginResult where
  response : Except LoginError LoginResponse
  twoFaStore : TwoFaStore
  sentEmails : List SentEmail
deriving Repr

/-- `LoginUseCase::execute` (with `handle_2fa_required` inlined), against
`HashMapUserStore` and `HashMapTwoFaCodeStore` and an email client that
records its calls (the store's `TwoFaAttemptId::new()`/`TwoFaCode::new()`
random draws are passed in as `freshAttemptId`/`freshCode`): authenticate;
`No2Fa` yields `Success`; `Requires2Fa` stores the fresh challenge, sends
one email whose content is the code, and returns the attempt id. -/
def login_execute (users : UserTable) (twoFa : TwoFaStore)
    (email password freshAttemptId freshCode : String) : LoginResult :=
  match authenticate_user users email password with
  | .error e => ⟨.error (.UserStoreError e), twoFa, []⟩
  | .ok (.No2Fa e) => ⟨.ok (.Success e), twoFa, []⟩
  | .ok (.Requires2Fa e) =>
      let twoFa' := store_code e freshAttemptId freshCode twoFa
      ⟨.ok (.Requires2Fa e freshAttemptId), twoFa', [⟨e, "2FA Code", freshCode⟩]⟩

/-- `LogoutUseCase::execute`: ban the main token, then the elevated token if
present (both into the use case's banned-token store). -/
def logout_execute (banned : List Token) (token : Token)
    (elevated : Option Token) : List Token :=
  match elevated with
  | none => ban_token token banned
  | some te => ban_token te (ban_token token banned)

/-- `JwtAuthError` from `jwt_scheme.rs` (constructors this development
uses). -/
inductive JwtAuthError
  | UserStoreError (e : UserStoreError)
  | TokenError (e : TokenAuthError)
  | TwoFaCodeStoreError (e : TwoFaCodeStoreError)
  | EmailError (msg : String)
deriving DecidableEq, Repr

/-- `JwtScheme::elevate` from `jwt_scheme.rs`: re-authenticate the user with
their password, then generate an elevated token from the elevated config's
TTL and secret.  A failed authentication propagates before any token is
generated. -/
def jwt_scheme_elevate (users : UserTable) (email password : String)
    (elevatedTtl now : Int) (elevatedSecret : String) :
    Except JwtAuthError Token :=
  match authenticate_user users email password with
  | .error e => .error (.UserStoreError e)
  | .ok _ =>
    match generate_auth_token email elevatedTtl now elevatedSecret with
    | .error e => .error (.TokenError e)
    | .ok t => .ok t

/-- `ElevateError` from `auth-application/use_cases/elevate.rs`. -/
inductive ElevateError
  | UserStoreError (e : UserStoreError)
deriving DecidableEq, Repr

/-- `ElevateUseCase::execute`: re-authenticate the user, return the email. -/
def elevate_use_case_execute (users : UserTable) (email password : String) :
    Except ElevateError String :=
  match authenticate_user users email password with
  | .error e => .error (.UserStoreError e)
  | .ok _ => .ok email

/-- Modelled from the spec: the `AuthApiError` of the missing
`routes/error.rs`, covering the failure classes the `elevate` route
surfaces: missing/invalid token, input validation, and user-store errors. -/
inductive AuthApiError
  | MissingToken
  | TokenAuthError (e : TokenAuthError)
  | InvalidEmail
  | InvalidPassword
  | UserStoreError (e : UserStoreError)
deriving DecidableEq, Repr

/-- Modelled from the spec: `Email::parse(raw)` of the missing
`domain/email.rs` "fails with InvalidFormat if not a syntactically valid
address"; validity is represented by containing an `@`. -/
def parseEmail (raw : String) : Except AuthApiError String :=
  if raw.contains '@' then .ok raw else .error .InvalidEmail

/-- Modelled from the spec: `Password::parse(raw)` of the missing
`domain/password.rs` "fails with TooShort/Empty if below policy minimum";
the minimum is taken as 8 characters. -/
def parsePassword (raw : String) : Except AuthApiError String :=
  if 8 ≤ raw.length then .ok raw else .error .InvalidPassword

/-- The `elevate` HTTP route handler from
`auth-adapters/src/http/routes/elevate.rs`: read the regular-token cookie
from the jar (`MissingToken` if absent), run the regular token through
`validate_auth_token` (the missing `auth/jwt.rs` validator is modelled by
the same decode/ban-check pipeline as `local_jwt_validator.rs`, per spec
§4.3), and only then parse the submitted email and password, run the
elevate use case, and generate the elevated auth cookie, whose token the
handler returns.  Cookie values in the jar are the well-formed tokens the
claims range over. -/
def elevate_route (users : UserTable) (banned : List Token)
    (jar : List (String × Token)) (cookieName jwtSecret : String) (now : Nat)
    (reqEmail reqPassword : String) (elevatedTtl elevatedNow : Int)
    (elevatedSecret : String) : Except AuthApiError Token :=
  match jar.find? (fun c => c.1 == cookieName) with
  | none => .error .MissingToken
  | some (_, t) =>
    match validate_auth_token t banned jwtSecret now with
    | .error e => .error (.TokenAuthError e)
    | .ok _ =>
      match parseEmail reqEmail with
      | .error e => .error e
      | .ok email =>
        match parsePassword reqPassword with
        | .error e => .error e
        | .ok password =>
          match authenticate_user users email password with
          | .error e => .error (.UserStoreError e)
          | .ok _ =>
            match generate_auth_token email elevatedTtl elevatedNow elevatedSecret with
            | .error e => .error (.TokenAuthError e)
            | .ok tok => .ok tok

/-- Argon2 cost parameters: `Params::new(m_cost, t_cost, p_cost, None)`. -/
structure Argon2Params where
  m_cost : Nat
  t_cost : Nat
  p_cost : Nat
deriving DecidableEq, Repr

/-- The cost parameters passed to `Argon2::new` in `compute_password_hash`
(`postgres_user_store.rs`): `Params::new(15000, 2, 1, None)`. -/
def compute_params : Argon2Params := ⟨15000, 2, 1⟩

/-- The cost parameters passed to `Argon2::new` in `verify_password_hash`
(`postgres_user_store.rs`): `Params::new(15000, 2, 1, None)`. -/
def verify_params : Argon2Params := ⟨15000, 2, 1⟩

/-- Modelled from the spec: the output of the Argon2id key-derivation
function (external `argon2` crate), a deterministic function of the cost
parameters, salt and password.  §8 specifies that verification succeeds
exactly for the matching candidate, so the KDF is idealized as injective:
the output is represented by its determining inputs. -/
structure KdfOutput where
  params : Argon2Params
  salt : String
  password : String
deriving DecidableEq, Repr

/-- A stored password hash string: either a well-formed PHC string (as
produced by `PasswordHasher::hash_password`: algorithm id, version, cost
parameters, salt and digest) or a malformed string that
`PasswordHash::new` fails to parse. -/
inductive StoredHash
  | phc (alg : String) (version : Nat) (params : Argon2Params) (salt : String)
      (digest : KdfOutput)
  | malformed (raw : String)
deriving DecidableEq, Repr

/-- `compute_password_hash` from `postgres_user_store.rs`: generate a salt
(passed in explicitly, modelling `SaltString::generate(OsRng)`), run
Argon2id v0x13 with `compute_params`, and render the PHC string. -/
def compute_password_hash (password salt : String) : StoredHash :=
  .phc "argon2id" 19 compute_params salt ⟨compute_params, salt, password⟩

/-- `verify_password_hash` from `postgres_user_store.rs`:
`PasswordHash::new` parses the stored string, failing closed (an `Err`
value, not a panic) on a malformed hash; `Argon2::verify_password` then
recomputes the digest from the candidate using the algorithm, version,
cost parameters and salt recorded in the parsed hash and compares it with
the stored digest. -/
def verify_password_hash (stored : StoredHash) (candidate : String) :
    Except String Unit :=
  match stored with
  | .malformed _ => .error "password hash parse error"
  | .phc _alg _version params salt digest =>
    if digest = (⟨params, salt, candidate⟩ : KdfOutput) then .ok ()
    else .error "invalid password"

/-! Helper lemmas shared by the claim theorems. -/

/-- A token is always a member of the ban set just extended with it. -/
theorem mem_ban_token_self (t : Token) (s : List Token) : t ∈ ban_token t s := by
  unfold ban_token
  split
  · assumption
  · exact List.mem_cons_self t s

/-- Membership in an extended ban set. -/
theorem mem_ban_token (x t : Token) (s : List Token) :
    x ∈ ban_token t s ↔ x = t ∨ x ∈ s := by
  unfold ban_token
  split
  · constructor
    · exact Or.inr
    · rintro (rfl | hx)
      · assumption
      · assumption
  · exact List.mem_cons

/-- After removing every entry for a key, lookup for that key finds
nothing. -/
theorem find?_filter_key_none (email : String) (s : TwoFaStore) :
    (s.filter (fun e => e.1 != email)).find? (fun e => e.1 == email) = none := by
  rw [List.find?_eq_none]
  intro x hx
  have h := (List.mem_filter.mp hx).2
  simp only [bne_iff_ne, ne_eq] at h
  simp [h]

/-- A successfully generated token is the canonical encoding of its claims,
with the expected subject and expiry. -/
theorem generate_auth_token_ok (sub secret : String) (ttl now₀ : Int)
    (t : Token) (h : generate_auth_token sub ttl now₀ secret = .ok t) :
    ¬ now₀ + ttl < 0 ∧ t = create_token ⟨sub, (now₀ + ttl).toNat⟩ secret := by
  unfold generate_auth_token at h
  by_cases hneg : now₀ + ttl < 0
  · simp [hneg] at h
  · simp [hneg] at h
    exact ⟨hneg, h.symm⟩

/-! The claim theorems. -/

/-- Claim C2: token issuance is deterministic — two calls of `create_token`
with equal claims (same subject string and same expiry timestamp) and the
same secret produce the same token bytes.  `jsonwebtoken::encode` draws no
randomness, so the compact serialization is a function of `(claims,
secret)`. -/
theorem C2_issue_deterministic (c₁ c₂ : Claims) (secret : String)
    (hsub : c₁.sub = c₂.sub) (hexp : c₁.exp = c₂.exp) :
    create_token c₁ secret = create_token c₂ secret := by
  cases c₁
  cases c₂
  simp_all [create_token]

/-- Witness for C2 at concrete claims. -/
theorem C2_issue_deterministic_witness :
    create_token ⟨"a@b.com", 100⟩ "s" = create_token ⟨"a@b.com", 100⟩ "s" :=
  C2_issue_deterministic ⟨"a@b.com", 100⟩ ⟨"a@b.com", 100⟩ "s" rfl rfl

/-- Claim C9: `verify(compute_hash(p), p)` succeeds; `verify(compute_hash(p),
q)` fails for any `q ≠ p`; `verify` fails closed (an error value, never a
panic — the embedding is a total function into `Except`) on a malformed
stored hash; and compute and verify pass identical cost parameters
(memory cost, iterations, parallelism) to `Argon2::new`. -/
theorem C9_hash_verify_roundtrip (p salt : String) :
    verify_password_hash (compute_password_hash p salt) p = .ok () ∧
    (∀ q : String, q ≠ p →
      verify_password_hash (compute_password_hash p salt) q =
        .error "invalid password") ∧
    (∀ raw candidate : String,
      verify_password_hash (.malformed raw) candidate =
        .error "password hash parse error") ∧
    compute_params = verify_params := by
  refine ⟨?_, ?_, fun raw candidate => rfl, rfl⟩
  · simp [verify_password_hash, compute_password_hash]
  · intro q hq
    have hne : (⟨compute_params, salt, p⟩ : KdfOutput) ≠ ⟨compute_params, salt, q⟩ := by
      intro hcontra
      cases hcontra
      exact hq rfl
    simp [verify_password_hash, compute_password_hash, hne]

/-- Witness for C9 at a concrete password, salt and wrong candidate. -/
theorem C9_hash_verify_roundtrip_witness :
    verify_password_hash (compute_password_hash "Password1" "salt0") "Password2" =
      .error "invalid password" :=
  (C9_hash_verify_roundtrip "Password1" "salt0").2.1 "Password2" (by decide)

/-- Claim C5: a token produced by the issuer and immediately checked by
`validate_auth_token` against the same secret and the empty (always-false)
ban store succeeds, and the returned claims equal the claims that were
encoded: subject is the email and expiry is the issuance time plus the
TTL. -/
theorem C5_issue_validate_roundtrip (sub secret : String) (ttl now₀ : Int)
    (t : Token) (h : generate_auth_token sub ttl now₀ secret = .ok t)
    (now : Nat) (hexp : ¬ t.claims.exp < now - decodeLeeway) :
    validate_auth_token t [] secret now = .ok t.claims ∧
    t.claims.sub = sub ∧ (t.claims.exp : Int) = now₀ + ttl := by
  obtain ⟨hneg, rfl⟩ := generate_auth_token_ok sub secret ttl now₀ t h
  refine ⟨?_, rfl, ?_⟩
  · simp only [create_token] at hexp ⊢
    simp [validate_auth_token, jwtDecode, hexp, contains_token, create_token]
  · simp only [create_token]
    exact Int.toNat_of_nonneg (not_lt.mp hneg)

/-- Witness for C5 at a concrete email, secret, TTL and clock. -/
theorem C5_issue_validate_roundtrip_witness :
    validate_auth_token ⟨⟨"a@b.com", 600⟩, "s"⟩ [] "s" 50 =
      .ok (⟨"a@b.com", 600⟩ : Claims) :=
  (C5_issue_validate_roundtrip "a@b.com" "s" 600 0 ⟨⟨"a@b.com", 600⟩, "s"⟩
    rfl 50 (by decide)).1

/-- Claim C1: `validate_auth_token` first decodes and signature-verifies the
token (a decode failure propagates for every ban store, which is never
consulted), then re-issues a token from the recovered claims and secret and
queries the ban store with that canonical re-encoding; in particular, once
`ban_token(t)` has been called on the store, validating an issued,
unexpired `t` under the same secret fails with `TokenIsBanned` instead of
returning claims (the `HashSetBannedTokenStore` retains entries
indefinitely). -/
theorem C1_validate_canonical_ban_check
    (sub secret : String) (ttl now₀ : Int) (t : Token)
    (h : generate_auth_token sub ttl now₀ secret = .ok t)
    (now : Nat) (hexp : ¬ t.claims.exp < now - decodeLeeway)
    (banned : List Token) :
    (∀ (b : List Token) (u : Token) (e : JwtError),
       jwtDecode u secret now = .error e →
       validate_auth_token u b secret now = .error (.TokenError e)) ∧
    (∀ (b : List Token) (u : Token) (claims : Claims),
       jwtDecode u secret now = .ok claims →
       validate_auth_token u b secret now =
         if contains_token b (create_token claims secret) then
           .error .TokenIsBanned
         else .ok claims) ∧
    validate_auth_token t (ban_token t banned) secret now =
      .error .TokenIsBanned := by
  obtain ⟨hneg, rfl⟩ := generate_auth_token_ok sub secret ttl now₀ t h
  refine ⟨?_, ?_, ?_⟩
  · intro b u e hd
    simp [validate_auth_token, hd]
  · intro b u claims hd
    simp [validate_auth_token, hd]
  · have hmem := mem_ban_token_self (create_token ⟨sub, (now₀ + ttl).toNat⟩ secret) banned
    simp only [create_token] at hexp hmem ⊢
    simp [validate_auth_token, jwtDecode, hexp, contains_token, create_token, hmem]

/-- Witness for C1: the banned-token branch at a concrete token, secret and
clock. -/
theorem C1_validate_canonical_ban_check_witness :
    validate_auth_token ⟨⟨"a@b.com", 600⟩, "s"⟩
        (ban_token ⟨⟨"a@b.com", 600⟩, "s"⟩ []) "s" 50 =
      .error .TokenIsBanned :=
  (C1_validate_canonical_ban_check "a@b.com" "s" 600 0 ⟨⟨"a@b.com", 600⟩, "s"⟩
    rfl 50 (by decide) []).2.2

/-- Claim C6: regular and elevated tokens are validated and revoked
independently.  Banning a token issued under one secret never changes the
validation outcome of any token checked under a different secret (the ban
check compares canonical re-encodings, and tokens under distinct secrets
have distinct encodings); and after `logout` bans a session's regular and
elevated tokens, validating that regular token fails `TokenIsBanned` while
a separately-issued elevated token for another session (different claims)
still validates successfully. -/
theorem C6_regular_elevated_independence
    (sr se : String) (hsec : sr ≠ se)
    (cr ce ce₂ : Claims) (now : Nat)
    (hexpr : ¬ cr.exp < now - decodeLeeway)
    (hexpe : ¬ ce₂.exp < now - decodeLeeway)
    (hsession : ce₂ ≠ ce) :
    (∀ (s₁ s₂ : String), s₁ ≠ s₂ →
      ∀ (c : Claims) (u : Token) (b : List Token),
        validate_auth_token u (ban_token (create_token c s₂) b) s₁ now =
          validate_auth_token u b s₁ now) ∧
    validate_auth_token (create_token cr sr)
        (logout_execute [] (create_token cr sr) (some (create_token ce se)))
        sr now =
      .error .TokenIsBanned ∧
    validate_auth_token (create_token ce₂ se)
        (logout_execute [] (create_token cr sr) (some (create_token ce se)))
        se now =
      .ok ce₂ := by
  refine ⟨?_, ?_, ?_⟩
  · intro s₁ s₂ hne c u b
    unfold validate_auth_token
    cases hd : jwtDecode u s₁ now with
    | error e => rfl
    | ok claims =>
      have hkey : create_token claims s₁ ≠ create_token c s₂ := by
        intro hcontra
        cases hcontra
        exact hne rfl
      have hc : contains_token (ban_token (create_token c s₂) b)
          (create_token claims s₁) = contains_token b (create_token claims s₁) := by
        simp [contains_token, mem_ban_token, hkey]
      simp [hc]
  · have hmem : create_token cr sr ∈
        logout_execute [] (create_token cr sr) (some (create_token ce se)) := by
      simp [logout_execute, mem_ban_token, mem_ban_token_self]
    simp only [create_token] at hmem
    simp [validate_auth_token, jwtDecode, hexpr, contains_token, create_token, hmem]
  · have hr : create_token ce₂ se ≠ create_token cr sr := by
      intro hcontra
      cases hcontra
      exact hsec rfl
    have he : create_token ce₂ se ≠ create_token ce se := by
      intro hcontra
      cases hcontra
      exact hsession rfl
    have hmem : create_token ce₂ se ∉
        logout_execute [] (create_token cr sr) (some (create_token ce se)) := by
      simp [logout_execute, mem_ban_token, hr, he]
    simp only [create_token] at hmem
    simp [validate_auth_token, jwtDecode, hexpe, contains_token, create_token, hmem]

/-- Witness for C6: the logout scenario at concrete sessions and secrets. -/
theorem C6_regular_elevated_independence_witness :
    validate_auth_token (create_token ⟨"c@d.com", 700⟩ "se")
        (logout_execute [] (create_token ⟨"a@b.com", 600⟩ "sr")
          (some (create_token ⟨"a@b.com", 650⟩ "se")))
        "se" 50 =
      .ok (⟨"c@d.com", 700⟩ : Claims) :=
  (C6_regular_elevated_independence "sr" "se" (by decide)
    ⟨"a@b.com", 600⟩ ⟨"a@b.com", 650⟩ ⟨"c@d.com", 700⟩ 50
    (by decide) (by decide) (by decide)).2.2

/-- Claim C3: against the hashmap 2FA store, `Verify2FaUseCase::execute`
succeeds iff the submitted attempt id and code both equal the stored
challenge for the email (the store holds only the most recently stored
challenge — `store_code` overwrites, last conjunct); a mismatched attempt
id fails `InvalidLoginAttemptId`; a matched attempt id with a mismatched
code fails `InvalidTwoFaCode`; and success deletes the stored challenge,
so an immediately repeated call with the same inputs fails with the
deleted-state error `UserNotFound`. -/
theorem C3_verify2fa_iff_and_single_use (s : TwoFaStore)
    (email attemptId code storedId storedCode : String)
    (h : get_login_attempt_id_and_two_fa_code s email = .ok (storedId, storedCode)) :
    ((verify2fa_execute s email attemptId code).1 = .ok email ↔
       attemptId = storedId ∧ code = storedCode) ∧
    (attemptId ≠ storedId →
       (verify2fa_execute s email attemptId code).1 = .error .InvalidLoginAttemptId) ∧
    (attemptId = storedId → code ≠ storedCode →
       (verify2fa_execute s email attemptId code).1 = .error .InvalidTwoFaCode) ∧
    (attemptId = storedId → code = storedCode →
       (verify2fa_execute (verify2fa_execute s email attemptId code).2
           email attemptId code).1 =
         .error (.TwoFaCodeStoreError .UserNotFound)) ∧
    (∀ (s' : TwoFaStore) (id' c' : String),
       get_login_attempt_id_and_two_fa_code (store_code email id' c' s') email =
         .ok (id', c')) := by
  have h' := h
  unfold get_login_attempt_id_and_two_fa_code at h'
  have hany : s.any (fun e => e.1 == email) = true := by
    cases hf : s.find? (fun e => e.1 == email) with
    | none => rw [hf] at h'; exact absurd h' (by simp)
    | some entry =>
      have hp := List.find?_some hf
      exact List.any_eq_true.mpr ⟨entry, List.mem_of_find?_eq_some hf, hp⟩
  refine ⟨?_, ?_, ?_, ?_, ?_⟩
  · constructor
    · intro hok
      by_cases hid : storedId = attemptId
      · by_cases hcode : storedCode = code
        · exact ⟨hid.symm, hcode.symm⟩
        · simp [verify2fa_execute, h, hid, hcode] at hok
      · simp [verify2fa_execute, h, hid] at hok
    · rintro ⟨rfl, rfl⟩
      simp [verify2fa_execute, h, deleteCode, hany]
  · intro hne
    simp [verify2fa_execute, h, Ne.symm hne]
  · intro hid hne
    subst hid
    simp [verify2fa_execute, h, Ne.symm hne]
  · intro hid hcode
    subst hid
    subst hcode
    have hrun : verify2fa_execute s email attemptId code =
        (.ok email, s.filter (fun e => e.1 != email)) := by
      simp [verify2fa_execute, h, deleteCode, hany]
    rw [hrun]
    unfold verify2fa_execute get_login_attempt_id_and_two_fa_code
    rw [find?_filter_key_none]
  · intro s' id' c'
    simp [get_login_attempt_id_and_two_fa_code, store_code, List.find?]

/-- Witness for C3: a mismatched attempt id at a concrete store. -/
theorem C3_verify2fa_iff_and_single_use_witness :
    (verify2fa_execute [("a@b.com", "id1", "c1")] "a@b.com" "id2" "c1").1 =
      .error .InvalidLoginAttemptId :=
  (C3_verify2fa_iff_and_single_use [("a@b.com", "id1", "c1")]
    "a@b.com" "id2" "c1" "id1" "c1" rfl).2.1 (by decide)

/-- Claim C4: for a stored user, login with `requires_2fa = false` and the
correct password returns `Success`; an incorrect password returns
`IncorrectPassword` and never `Success`; with `requires_2fa = true` login
never returns `Success` directly — with the correct password it stores the
fresh challenge, sends exactly one email whose content is the stored code,
and returns `Requires2Fa` with an attempt id such that the attempt id and
the emailed code satisfy `Verify2FA`. -/
theorem C4_login_outcomes (users : UserTable) (twoFa : TwoFaStore) (u : User)
    (hfind : users.find? (fun x => x.email == u.email) = some u)
    (freshAttemptId freshCode : String) :
    (u.requires_2fa = false → ∀ password, password = u.password →
       (login_execute users twoFa u.email password freshAttemptId freshCode).response =
         .ok (.Success u.email)) ∧
    (∀ password, password ≠ u.password →
       (login_execute users twoFa u.email password freshAttemptId freshCode).response =
         .error (.UserStoreError .IncorrectPassword)) ∧
    (u.requires_2fa = true →
       (∀ password e,
          (login_execute users twoFa u.email password freshAttemptId freshCode).response ≠
            .ok (.Success e)) ∧
       ((login_execute users twoFa u.email u.password
            freshAttemptId freshCode).response =
          .ok (.Requires2Fa u.email freshAttemptId) ∧
        (login_execute users twoFa u.email u.password
            freshAttemptId freshCode).sentEmails =
          [⟨u.email, "2FA Code", freshCode⟩] ∧
        get_login_attempt_id_and_two_fa_code
            (login_execute users twoFa u.email u.password
              freshAttemptId freshCode).twoFaStore u.email =
          .ok (freshAttemptId, freshCode) ∧
        (verify2fa_execute
            (login_execute users twoFa u.email u.password
              freshAttemptId freshCode).twoFaStore
            u.email freshAttemptId freshCode).1 =
          .ok u.email)) := by
  refine ⟨?_, ?_, ?_⟩
  · intro h2fa password hpw
    subst hpw
    simp [login_execute, authenticate_user, hfind, password_matches,
      ValidatedUser.new, h2fa]
  · intro password hpw
    simp [login_execute, authenticate_user, hfind, password_matches,
      Ne.symm hpw]
  · intro h2fa
    constructor
    · intro password e
      by_cases hpw : u.password = password
      · simp [login_execute, authenticate_user, hfind, password_matches,
          ValidatedUser.new, h2fa, hpw]
      · simp [login_execute, authenticate_user, hfind, password_matches, hpw]
    · refine ⟨?_, ?_, ?_, ?_⟩ <;>
        simp [login_execute, authenticate_user, hfind, password_matches,
          ValidatedUser.new, h2fa, store_code, verify2fa_execute,
          get_login_attempt_id_and_two_fa_code, deleteCode, List.find?]

/-- Witness for C4: a wrong password at a concrete user table. -/
theorem C4_login_outcomes_witness :
    (login_execute [⟨"a@b.com", "pw123", true⟩] [] "a@b.com" "bad"
        "fid" "fc").response =
      .error (.UserStoreError .IncorrectPassword) :=
  (C4_login_outcomes [⟨"a@b.com", "pw123", true⟩] [] ⟨"a@b.com", "pw123", true⟩
    rfl "fid" "fc").2.1 "bad" (by decide)

/-- Claim C7: when a user record with the given email is already present in
the store, a second signup with that email fails `UserAlreadyExists`, the
user table is unchanged by the failed call, and the stored record still
reads back unmodified. -/
theorem C7_signup_duplicate_unchanged (users : UserTable) (existing : User)
    (hfind : users.find? (fun x => x.email == existing.email) = some existing)
    (password : String) (requires2fa : Bool) :
    (signup_execute users existing.email password requires2fa).1 =
      .error .UserAlreadyExists ∧
    (signup_execute users existing.email password requires2fa).2 = users ∧
    get_user (signup_execute users existing.email password requires2fa).2
        existing.email =
      .ok existing := by
  have hany : users.any (fun x => x.email == existing.email) = true :=
    List.any_eq_true.mpr
      ⟨existing, List.mem_of_find?_eq_some hfind, by simp⟩
  refine ⟨?_, ?_, ?_⟩ <;>
    simp [signup_execute, add_user, hany, get_user, hfind]

/-- Witness for C7 at a concrete one-user table. -/
theorem C7_signup_duplicate_unchanged_witness :
    (signup_execute [⟨"a@b.com", "pw123", false⟩] "a@b.com" "other pw" true).1 =
      .error .UserAlreadyExists :=
  (C7_signup_duplicate_unchanged [⟨"a@b.com", "pw123", false⟩]
    ⟨"a@b.com", "pw123", false⟩ rfl "other pw" true).1

/-- Claim C8: for a stored user and any candidate password that does not
match the stored credential, both `JwtScheme::elevate` and
`ElevateUseCase::execute` fail with the authentication error
`IncorrectPassword` and never return an elevated token.  Neither function
takes or consults a regular token, so the failure is independent of any
token the caller may hold. -/
theorem C8_elevate_wrong_password (users : UserTable) (u : User)
    (hfind : users.find? (fun x => x.email == u.email) = some u)
    (password : String) (hpw : password ≠ u.password)
    (elevatedTtl now : Int) (elevatedSecret : String) :
    jwt_scheme_elevate users u.email password elevatedTtl now elevatedSecret =
      .error (.UserStoreError .IncorrectPassword) ∧
    (∀ t : Token,
       jwt_scheme_elevate users u.email password elevatedTtl now
         elevatedSecret ≠ .ok t) ∧
    elevate_use_case_execute users u.email password =
      .error (.UserStoreError .IncorrectPassword) := by
  refine ⟨?_, ?_, ?_⟩ <;>
    simp [jwt_scheme_elevate, elevate_use_case_execute, authenticate_user,
      hfind, password_matches, Ne.symm hpw]

/-- Witness for C8 at a concrete user and wrong password. -/
theorem C8_elevate_wrong_password_witness :
    jwt_scheme_elevate [⟨"a@b.com", "pw123", false⟩] "a@b.com" "bad" 300 0 "es" =
      .error (.UserStoreError .IncorrectPassword) :=
  (C8_elevate_wrong_password [⟨"a@b.com", "pw123", false⟩]
    ⟨"a@b.com", "pw123", false⟩ rfl "bad" (by decide) 300 0 "es").1

/-- Claim C10: the elevation HTTP endpoint requires a valid, un-banned
regular token before anything else.  Without a regular-token cookie it
fails `MissingToken`; when the regular token fails signature, expiry or ban
validation it fails with that token error.  In both cases the result is an
error — so no elevated cookie is issued — and is the same for every user
table and every submitted email and password, i.e. the handler fails
before the submitted password is ever checked. -/
theorem C10_elevate_route_token_precondition
    (banned : List Token) (jar : List (String × Token))
    (cookieName jwtSecret : String) (now : Nat)
    (elevatedTtl elevatedNow : Int) (elevatedSecret : String) :
    (jar.find? (fun c => c.1 == cookieName) = none →
      ∀ (users : UserTable) (reqEmail reqPassword : String),
        elevate_route users banned jar cookieName jwtSecret now
            reqEmail reqPassword elevatedTtl elevatedNow elevatedSecret =
          .error .MissingToken) ∧
    (∀ (n : String) (t : Token) (e : TokenAuthError),
      jar.find? (fun c => c.1 == cookieName) = some (n, t) →
      validate_auth_token t banned jwtSecret now = .error e →
      ∀ (users : UserTable) (reqEmail reqPassword : String),
        elevate_route users banned jar cookieName jwtSecret now
            reqEmail reqPassword elevatedTtl elevatedNow elevatedSecret =
          .error (.TokenAuthError e)) := by
  constructor
  · intro hnone users reqEmail reqPassword
    simp [elevate_route, hnone]
  · intro n t e hfind hval users reqEmail reqPassword
    simp [elevate_route, hfind, hval]

/-- Witness for C10: an empty cookie jar at concrete configuration. -/
theorem C10_elevate_route_token_precondition_witness :
    elevate_route [] [] [] "jwt" "s" 0 "a@b.com" "password1" 300 0 "es" =
      .error .MissingToken :=
  (C10_elevate_route_token_precondition [] [] "jwt" "s" 0 300 0 "es").1
    rfl [] "a@b.com" "password1"

end Tempered
